import Mathlib

/-!
# ChessBot — verification of the move-selection, session and scheduling core

A shallow embedding, in Lean 4, of the core logic of the ChessBot repository:

* `pickGaslightMove` and its score normalization (src/server.js:78-133,
  src/src/server/stockfishServer.js:84-136);
* the `GameState` session object and its turn derivation
  (src/src/ui/controlPanel.js:844-948, current revision of GameState);
* the WebSocket message handler of the Lichess bot
  (src/unnamed/part_004, `handleWebSocketMessage` / `processMoveMessage`);
* the time scheduler `getDynamicMovetime` (src/unnamed/part_004:85-113);
* the smack-mode controller `updateSmackModeStatus` (src/unnamed/part_004:189-202);
* the API client `calculateBestMove` / `calculateGaslightMove`
  (src/src/utils/apiClient.js) and the null-handling of their callers;
* the evaluation-bar display `updateScore` (src/src/utils/pageUtils.js:135-168,
  and the older revision src/unnamed/part_002:112-141).

JavaScript numbers are modelled as exact rationals (`ℚ`) where fractional
values occur and as integers (`ℤ`/`ℕ`) where the code only ever holds
integers; within the magnitudes used here double-precision arithmetic is
exact for the integer cases and the 1/10000-granularity tie-break keys, so
this idealization is faithful.  External collaborators (the browser page,
the Stockfish HTTP server, `Math.random`) are passed in as explicit inputs.
-/

/-- Score unit tag attached by the UCI engine to each line:
centipawns (`"cp"`) or mate-in-N (`"mate"`), from `SCORE_UNIT` in
src/unnamed/part_001:33-36. -/
inductive ScoreUnit where
  | cp
  | mate
  deriving DecidableEq, Repr

/-- One `info` line of an engine `go` result, as consumed by
`pickGaslightMove` (src/server.js:84-105): the first move of the principal
variation (`result.info[i]['pv'].split(" ")[0]`), the search depth, and the
`score` value/unit pair. -/
structure InfoLine where
  pvMove : String
  depth : Nat
  scoreValue : Int
  scoreUnit : ScoreUnit
  deriving DecidableEq, Repr

/-- Score normalization inside `pickGaslightMove` (src/server.js:91-100):
a centipawn score is used unchanged; a mate score `n > 0` becomes
`mateBoost - n`, otherwise `-mateBoost - n`. -/
def numScoreOf (mateBoost : Int) (score : Int) (unit : ScoreUnit) : Int :=
  match unit with
  | ScoreUnit.cp => score
  | ScoreUnit.mate => if score > 0 then mateBoost - score else -mateBoost - score

/-- The per-candidate tie-break summand `(result.info.length - i) / 10000`
added to the normalized score at src/server.js:101, for array length `len`
and loop index `i`. -/
def tieBreakOffset (len i : Nat) : ℚ :=
  ((len : ℚ) - (i : ℚ)) / 10000

/-- JavaScript object assignment `d[k] = v`: overwrite the value when the
key is present, otherwise append the binding. -/
def dictInsert {α β : Type} [DecidableEq α] (d : List (α × β)) (k : α) (v : β) :
    List (α × β) :=
  if d.any (fun p => p.1 = k) then
    d.map (fun p => if p.1 = k then (k, v) else p)
  else
    d ++ [(k, v)]

/-- JavaScript object read `d[k]`. -/
def dictLookup {α β : Type} [DecidableEq α] (d : List (α × β)) (k : α) : Option β :=
  (d.find? (fun p => p.1 = k)).map Prod.snd

/-- The three dictionaries built by the survivor loop of `pickGaslightMove`
(src/server.js:81-105). -/
structure GaslightDicts where
  moveScoreDict : List (String × Int)
  moveScoreUnitDict : List (String × ScoreUnit)
  numScoreMoveDict : List (ℚ × String)
  deriving Repr

/-- One iteration of the loop `for (let i = result.info.length - 1; i >= 0; i--)`
at src/server.js:84-105: lines whose depth is not the maximum depth are
skipped; a surviving line is normalized, given its tie-break offset, and
written into the three dictionaries. -/
def gaslightStep (mateBoost : Int) (maxDepth len : Nat)
    (d : GaslightDicts) (entry : Nat × InfoLine) : GaslightDicts :=
  let i := entry.1
  let line := entry.2
  if line.depth ≠ maxDepth then d
  else
    let numScore : ℚ :=
      (numScoreOf mateBoost line.scoreValue line.scoreUnit : ℚ) + tieBreakOffset len i
    { moveScoreDict := dictInsert d.moveScoreDict line.pvMove line.scoreValue
      moveScoreUnitDict := dictInsert d.moveScoreUnitDict line.pvMove line.scoreUnit
      numScoreMoveDict := dictInsert d.numScoreMoveDict numScore line.pvMove }

/-- The dictionaries after the whole survivor loop: indices are processed
from `len - 1` down to `0`, hence the fold over `info.enum.reverse`. -/
def gaslightDicts (info : List InfoLine) (mateBoost : Int) : GaslightDicts :=
  let maxDepth := ((info.getLast?).map InfoLine.depth).getD 0
  info.enum.reverse.foldl (gaslightStep mateBoost maxDepth info.length)
    { moveScoreDict := [], moveScoreUnitDict := [], numScoreMoveDict := [] }

/-- `sortedScoresArray` (src/server.js:108-110): the distinct tie-broken
normalized scores, sorted ascending. -/
def gaslightSortedScores (info : List InfoLine) (mateBoost : Int) : List ℚ :=
  List.insertionSort (· ≤ ·) ((gaslightDicts info mateBoost).numScoreMoveDict.map Prod.fst)

/-- The banded selection of src/server.js:112-123: `bestScore` is the last
element of the ascending array, `minScore = max(bestScore - maxScoreLoss,
scoreFloor)`, and the selection takes the first element strictly above
`minScore`, falling back to `bestScore`. -/
def gaslightSelectedScore (info : List InfoLine)
    (mateBoost maxScoreLoss scoreFloor : Int) : Option ℚ :=
  let sorted := gaslightSortedScores info mateBoost
  sorted.getLast?.map (fun bestScore =>
    let minScore : ℚ := max (bestScore - (maxScoreLoss : ℚ)) (scoreFloor : ℚ)
    ((sorted.find? (fun s => minScore < s)).getD bestScore))

/-- Result record returned by the server endpoints (src/server.js:127-132). -/
structure MoveInfo where
  move : String
  depth : Nat
  score : Int
  scoreunit : ScoreUnit
  deriving DecidableEq, Repr

/-- `pickGaslightMove` (src/server.js:78-133).  On an empty `info` array the
JavaScript code faults (reads a field of `undefined`); this is modelled by
`none`, likewise when no line survives at maximal depth. -/
def pickGaslightMove (info : List InfoLine)
    (mateBoost maxScoreLoss scoreFloor : Int) : Option MoveInfo :=
  match info.getLast? with
  | none => none
  | some lastLine =>
    let d := gaslightDicts info mateBoost
    match gaslightSelectedScore info mateBoost maxScoreLoss scoreFloor with
    | none => none
    | some selectedScore =>
      match dictLookup d.numScoreMoveDict selectedScore with
      | none => none
      | some selectedMove =>
        match dictLookup d.moveScoreDict selectedMove,
              dictLookup d.moveScoreUnitDict selectedMove with
        | some score, some scoreUnit =>
          some { move := selectedMove, depth := lastLine.depth,
                 score := score, scoreunit := scoreUnit }
        | _, _ => none

/-- The per-game session state, from the current revision of the GameState
class (src/src/ui/controlPanel.js:844-948; the constructor calls `reset()`,
src/src/ui/controlPanel.js:852-861).  `initialGameTime` is `null` until the
first clock reading is captured. -/
structure GameState where
  moveCounter : Nat
  playerColorIsWhite : Bool
  badOpeningOngoing : Bool
  madeFirstMove : Bool
  smackModeEnabled : Bool
  evalBarAdded : Bool
  initialGameTime : Option ℚ
  moretimeSpamSent : Bool
  mateBmDelayed : Bool
  deriving DecidableEq, Repr

/-- `GameState.reset()` (src/src/ui/controlPanel.js:852-861). -/
def GameState.reset : GameState :=
  { moveCounter := 0
    playerColorIsWhite := false
    badOpeningOngoing := true
    madeFirstMove := false
    smackModeEnabled := false
    evalBarAdded := false
    initialGameTime := none
    moretimeSpamSent := false
    mateBmDelayed := false }

/-- `isWhitesTurn()` (src/src/ui/controlPanel.js:925-929): white to move
after an even number of moves. -/
def GameState.isWhitesTurn (s : GameState) : Bool :=
  s.moveCounter % 2 == 0

/-- `isBotsTurn()` (src/src/ui/controlPanel.js:936-945): the bot moves when
its color matches the side to move. -/
def GameState.isBotsTurn (s : GameState) : Bool :=
  s.playerColorIsWhite == s.isWhitesTurn

/-- `activateSmackMode()` (src/src/ui/controlPanel.js:898-900, called from
src/unnamed/part_004:125). -/
def activateSmackMode (s : GameState) : GameState :=
  { s with smackModeEnabled := true }

/-- The JavaScript comparison `timeLeft < minTime` where `timeLeft` may be
`undefined` (missing clock data): a comparison against `undefined` is
`false`. -/
def jsLtOpt (timeLeft : Option ℚ) (minTime : ℚ) : Bool :=
  match timeLeft with
  | some t => decide (t < minTime)
  | none => false

/-- `updateSmackModeStatus` (src/unnamed/part_004:189-202) as the predicate
deciding whether `activateSmackMode` is invoked: hard triggers first
(too many moves, too little time, score above `config.smackModeMaxScore`),
otherwise escalate only when at least `minMoves` moves were played and the
score is at most `minScore`. -/
def updateSmackModeStatus (gameMoveCounter : Nat) (timeLeft : Option ℚ)
    (score : Int) (minScore : Int) (minMoves maxMoves : Nat)
    (minTime : ℚ) (smackModeMaxScore : Int) : Bool :=
  if gameMoveCounter > maxMoves ∨ jsLtOpt timeLeft minTime = true ∨ score > smackModeMaxScore then
    true
  else if gameMoveCounter < minMoves then
    false
  else if score > minScore then
    false
  else
    true

/-- The effect of `updateSmackModeStatus` on the session (it calls
`activateSmackMode` exactly when the predicate holds, and touches nothing
otherwise). -/
def updateSmackModeState (s : GameState) (timeLeft : Option ℚ)
    (score : Int) (minScore : Int) (minMoves maxMoves : Nat)
    (minTime : ℚ) (smackModeMaxScore : Int) : GameState :=
  if updateSmackModeStatus s.moveCounter timeLeft score minScore minMoves maxMoves
      minTime smackModeMaxScore then
    activateSmackMode s
  else
    s

/-- One entry of `config.timeThresholds` (movetime plus optional variance;
`thresholdConfig.variance || 0` makes a missing variance behave as `0`). -/
structure TimeThresholdEntry where
  movetime : Int
  variance : Nat
  deriving DecidableEq, Repr

/-- The configuration read by `getDynamicMovetime`
(src/unnamed/part_004:85-113): threshold table keyed by percent floors,
plus the default and minimum movetimes. -/
structure TimeConfig where
  defaultMovetime : Int
  minimumMovetime : Int
  timeThresholds : List (ℚ × TimeThresholdEntry)
  deriving DecidableEq, Repr

/-- `Object.keys(config.timeThresholds).map(Number).sort((a, b) => b - a)`
(src/unnamed/part_004:96-98): the table entries ordered by descending
floor (the JavaScript code sorts the keys and then reads the entry of each
key; carrying the entries along is the same association). -/
def sortedThresholds (cfg : TimeConfig) : List (ℚ × TimeThresholdEntry) :=
  List.insertionSort (fun a b => b.1 ≤ a.1) cfg.timeThresholds

/-- The `for (let threshold of sortedThresholds)` loop of
src/unnamed/part_004:100-107: the first entry whose floor is at most
`percentRemaining`. -/
def matchedThreshold (cfg : TimeConfig) (percentRemaining : ℚ) :
    Option (ℚ × TimeThresholdEntry) :=
  (sortedThresholds cfg).find? (fun p => p.1 ≤ percentRemaining)

/-- `Math.floor(Math.random() * (variance * 2 + 1)) - variance`
(src/unnamed/part_004:109), with the random draw `r ∈ [0, 1)` passed in
explicitly. -/
def randomVariance (r : ℚ) (variance : Nat) : Int :=
  ⌊r * (2 * (variance : ℚ) + 1)⌋ - (variance : Int)

/-- `getDynamicMovetime` (src/unnamed/part_004:85-113).  A falsy
`initialTime` (null because never captured, or a zero reading) returns the
configured default movetime directly; otherwise the percent-remaining
lookup picks a base movetime and variance, jitter is applied, and the
result is clamped from below by `config.minimumMovetime`. -/
def getDynamicMovetime (timeLeft : ℚ) (initialTime : Option ℚ)
    (cfg : TimeConfig) (r : ℚ) : Int :=
  match initialTime with
  | none => cfg.defaultMovetime
  | some it =>
    if it = 0 then cfg.defaultMovetime
    else
      let percentRemaining := timeLeft / it * 100
      let picked :=
        match matchedThreshold cfg percentRemaining with
        | some p => (p.2.movetime, p.2.variance)
        | none => (cfg.defaultMovetime, 0)
      max cfg.minimumMovetime (picked.1 + randomVariance r picked.2)

/-- The smack-mode thresholds read from `loadConfig()` by
`calculateNextMove` (src/unnamed/part_004:384-393). -/
structure SmackConfig where
  smackModeMinScore : Int
  smackModeMinMoves : Nat
  smackModeMaxMoves : Nat
  smackModeMinTime : ℚ
  smackModeMaxScore : Int
  deriving Repr

/-- One incoming WebSocket message together with the external responses the
handler consults while processing it.  `v` is the externally supplied
sequence number `messageData.v`; `isZero` marks the literal `0` keepalive
message (`messageData === 0`); `uci` is `messageData.d?.uci`; `clock` is
`messageData.d.clock?.[botColor]`; `colorSignal` is what `getPlayerColor`
reads off the page; the `*Enabled` flags are the page variables fetched per
message; `badOpeningMoveOk` abbreviates "`getBadOpeningMove` returned a
move and `isValidMove` accepted it"; `engineResp` is the Stockfish server
response (`Except.error` when the HTTP fetch fails or its body does not
parse); `smackCfg` is the configuration snapshot. -/
structure WsEvent where
  v : Nat
  isZero : Bool
  t : String
  goneFlag : Bool
  uci : Option String
  clock : Option ℚ
  colorSignal : Option Bool
  automoveEnabled : Bool
  badOpeningEnabled : Bool
  gaslightingEnabled : Bool
  spamMoretimeEnabled : Bool
  autoStartEnabled : Bool
  badOpeningMoveOk : Bool
  engineResp : Except Unit MoveInfo
  smackCfg : SmackConfig
  deriving Repr

/-- JavaScript runtime faults reachable in the handler: reading a property
of `null`. -/
inductive JsError where
  | typeError
  deriving DecidableEq, Repr

/-- `calculateBestMove` (src/src/utils/apiClient.js:12-22): the fetch result
is returned on success; any error is caught and `null` is returned. -/
def calculateBestMove (resp : Except Unit MoveInfo) : Option MoveInfo :=
  match resp with
  | Except.ok mi => some mi
  | Except.error _ => none

/-- `calculateGaslightMove` (src/src/utils/apiClient.js:27-37): identical
error handling. -/
def calculateGaslightMove (resp : Except Unit MoveInfo) : Option MoveInfo :=
  match resp with
  | Except.ok mi => some mi
  | Except.error _ => none

/-- `calculateNextMove` (src/unnamed/part_004:375-400), restricted to its
effect on the session state plus its returned move info.  In the
gaslighting branch the returned `moveInfo` of a failed engine query is
`null`, and evaluating the argument `moveInfo.score` of
`updateSmackModeStatus` (src/unnamed/part_004:388) throws a `TypeError`;
in the other branches a `null` result is returned to the caller as-is. -/
def calculateNextMove (s : GameState) (e : WsEvent) :
    Except JsError (GameState × Option MoveInfo) :=
  if e.gaslightingEnabled then
    if s.smackModeEnabled then
      Except.ok (s, calculateBestMove e.engineResp)
    else
      match calculateGaslightMove e.engineResp with
      | none => Except.error JsError.typeError
      | some mi =>
        Except.ok
          (updateSmackModeState s e.clock mi.score e.smackCfg.smackModeMinScore
            e.smackCfg.smackModeMinMoves e.smackCfg.smackModeMaxMoves
            e.smackCfg.smackModeMinTime e.smackCfg.smackModeMaxScore,
           some mi)
  else
    Except.ok (s, calculateBestMove e.engineResp)

/-- The move decision tail of `processMoveMessage`
(src/unnamed/part_004:594-697) viewed as "which move gets dispatched":
`moveInfo.move` is read at src/unnamed/part_004:596, so a `null`
`moveInfo` throws a `TypeError` there, before `sendMove`
(src/unnamed/part_004:682) can run; otherwise the move is sent exactly
when automove is enabled. -/
def moveDecision (s : GameState) (e : WsEvent) : Except JsError (Option String) :=
  match calculateNextMove s e with
  | Except.error er => Except.error er
  | Except.ok (_, none) => Except.error JsError.typeError
  | Except.ok (_, some mi) =>
    Except.ok (if e.automoveEnabled then some mi.move else none)

/-- The capture of the initial clock budget (src/unnamed/part_004:579-583
with `setInitialGameTime`, src/src/ui/controlPanel.js:906-910): set once,
only from a truthy clock reading. -/
def setInitialGameTime (s : GameState) (clock : Option ℚ) : GameState :=
  match s.initialGameTime, clock with
  | none, some tl => if tl ≠ 0 then { s with initialGameTime := some tl } else s
  | _, _ => s

/-- `tryBadOpeningMove` falling through (src/unnamed/part_004:343-364):
when the scripted opening is enabled and still ongoing but no legal
scripted move exists, `badOpeningOngoing` is cleared. -/
def exitBadOpening (s : GameState) (e : WsEvent) : GameState :=
  if e.badOpeningEnabled && s.badOpeningOngoing then
    { s with badOpeningOngoing := false }
  else s

/-- The flag updates after a successful engine decision
(src/unnamed/part_004:599-680): `moretimeSpamSent` when a winning mate
score arrives with spam enabled, `evalBarAdded` on first use, and
`mateBmDelayed` once the delayed mate sequence starts under automove. -/
def postDecisionFlags (s : GameState) (e : WsEvent) (mi : MoveInfo) : GameState :=
  let s :=
    if e.spamMoretimeEnabled && mi.scoreunit == ScoreUnit.mate
        && mi.score > 0 && !s.moretimeSpamSent then
      { s with moretimeSpamSent := true }
    else s
  let s := if !s.evalBarAdded then { s with evalBarAdded := true } else s
  let s :=
    if e.automoveEnabled && s.moretimeSpamSent && !s.mateBmDelayed then
      { s with mateBmDelayed := true }
    else s
  s

/-- The part of `processMoveMessage` after the counter increment
(src/unnamed/part_004:541-697): if it is the bot's turn the handler
captures the initial clock once, may consume the event with a scripted
bad-opening move, and otherwise runs the engine decision and the
post-decision flag updates.  A thrown `TypeError` (engine failure, see
`calculateNextMove`/`moveDecision`) aborts the remaining steps with the
state as already updated. -/
def processMoveBody (s : GameState) (e : WsEvent) : GameState :=
  if !s.isBotsTurn then s
  else
    let s := setInitialGameTime s e.clock
    if e.badOpeningEnabled && s.badOpeningOngoing && e.badOpeningMoveOk then s
    else
      let s := exitBadOpening s e
      match calculateNextMove s e with
      | Except.error _ => s
      | Except.ok (s, none) => s
      | Except.ok (s, some mi) => postDecisionFlags s e mi

/-- `processMoveMessage` (src/unnamed/part_004:528-543): messages without a
`uci` field are skipped (clock updates during moretime spam); a genuine
move increments the counter and the rest of the processing
(`processMoveBody`) runs on the updated session. -/
def processMoveMessage (s : GameState) (e : WsEvent) : GameState :=
  match e.uci with
  | none => s
  | some _ => processMoveBody { s with moveCounter := s.moveCounter + 1 } e

/-- `detectPlayerColor` (src/unnamed/part_004:476-490): only at the start of
a game (`moveCounter === 0`), and only for the `0` keepalive or a `crowd`
message, is the color read off the page and stored. -/
def detectColorState (s : GameState) (e : WsEvent) : GameState :=
  if (e.isZero || e.t == "crowd") && s.moveCounter == 0 then
    match e.colorSignal with
    | some c => { s with playerColorIsWhite := c }
    | none => s
  else s

/-- The guard of `handleFirstMoveAsWhite` (src/unnamed/part_004:496-511). -/
def firstMoveGuard (s : GameState) (e : WsEvent) : Bool :=
  s.playerColorIsWhite && s.moveCounter == 0 && !s.madeFirstMove && e.automoveEnabled

/-- The incoming-message handler (src/unnamed/part_004:716-762) as a state
transformer: opponent-gone claims and game-end handling return early (the
latter resetting the session through `newGame`, src/unnamed/part_004:769-797,
unless auto-start is disabled); then color detection, the
first-move-as-white shortcut (which dispatches the scripted opening move
and consumes the event, marking `madeFirstMove`), the message-type filter,
and finally `processMoveMessage`.  `messageData.v` is only ever logged. -/
def handleWebSocketMessage (s : GameState) (e : WsEvent) : GameState :=
  if e.t == "gone" && e.goneFlag then s
  else if e.t == "endData" then
    if e.autoStartEnabled then GameState.reset else s
  else
    let s := detectColorState s e
    if firstMoveGuard s e then { s with madeFirstMove := true }
    else if e.t != "move" then s
    else processMoveMessage s e

/-- A whole session: the handler folded over the incoming message list. -/
def runHandler (s : GameState) (es : List WsEvent) : GameState :=
  es.foldl handleWebSocketMessage s

/-- An event identical except for the externally supplied sequence number. -/
def WsEvent.eraseV (e : WsEvent) : WsEvent :=
  { e with v := 0 }

/-- `EVAL_SLIDER.MATE_VALUE` (src/unnamed/part_001:38-42). -/
def MATE_VALUE : Int := 700

/-- What `updateScore` writes to the page: the slider position and the text
of the evaluation label, the latter split by unit (`labelCp` is the number
printed by `(-score / 100).toFixed(1)`, `labelMate` the signed count shown
as `M{n}` or `-M{|n|}`). -/
structure EvalDisplay where
  sliderValue : ℚ
  labelCp : Option ℚ
  labelMate : Option Int
  deriving DecidableEq, Repr

/-- `updateScore` (src/src/utils/pageUtils.js:135-168), current revision:
mate scores are displayed as they come from the engine ("score is always
from white's perspective"), the slider saturating by their sign; centipawn
scores are negated when the bot plays white. -/
def updateScore (score : Int) (playerColorIsWhite : Bool)
    (scoreUnit : ScoreUnit) : EvalDisplay :=
  match scoreUnit with
  | ScoreUnit.mate =>
    { sliderValue := if score > 0 then (MATE_VALUE : ℚ) else -(MATE_VALUE : ℚ)
      labelCp := none
      labelMate := some score }
  | ScoreUnit.cp =>
    let score := if playerColorIsWhite then -score else score
    { sliderValue := (score : ℚ)
      labelCp := some (-(score : ℚ) / 100)
      labelMate := none }

/-- `updateScore` of the older revision (src/unnamed/part_002:112-141),
which negated the mate count as well when the bot plays white. -/
def updateScoreLegacy (score : Int) (playerColorIsWhite : Bool)
    (scoreUnit : ScoreUnit) : EvalDisplay :=
  match scoreUnit with
  | ScoreUnit.mate =>
    let mateIn := if playerColorIsWhite then -score else score
    { sliderValue := if mateIn > 0 then (MATE_VALUE : ℚ) else -(MATE_VALUE : ℚ)
      labelCp := none
      labelMate := some mateIn }
  | ScoreUnit.cp =>
    let score := if playerColorIsWhite then -score else score
    { sliderValue := (score : ℚ)
      labelCp := some (-(score : ℚ) / 100)
      labelMate := none }

/-- Sample engine result used in concrete runs: four centipawn lines at one
depth, the §8 example of the specification. -/
def exInfoBand : List InfoLine :=
  [ { pvMove := "a7a6", depth := 12, scoreValue := -50, scoreUnit := ScoreUnit.cp },
    { pvMove := "g8f6", depth := 12, scoreValue := 50, scoreUnit := ScoreUnit.cp },
    { pvMove := "d7d5", depth := 12, scoreValue := 150, scoreUnit := ScoreUnit.cp },
    { pvMove := "e7e5", depth := 12, scoreValue := 300, scoreUnit := ScoreUnit.cp } ]

/-- A losing position: the single candidate line scores -800 cp, below the
default score floor of -700. -/
def cexInfoLosing : List InfoLine :=
  [ { pvMove := "a1a2", depth := 10, scoreValue := -800, scoreUnit := ScoreUnit.cp } ]

/-- An engine result with 10000 info lines of which the first and the last
survive the depth filter. -/
def bigInfo : List InfoLine :=
  { pvMove := "a1a2", depth := 5, scoreValue := 0, scoreUnit := ScoreUnit.cp } ::
    (List.replicate 9998
      { pvMove := "c2c3", depth := 4, scoreValue := 0, scoreUnit := ScoreUnit.cp } ++
     [{ pvMove := "b1b2", depth := 5, scoreValue := 7, scoreUnit := ScoreUnit.cp }])

/-- The §8 threshold-table example: floors 61/50/40/30/5, no variance. -/
def exTimeConfig : TimeConfig :=
  { defaultMovetime := 1234
    minimumMovetime := 100
    timeThresholds :=
      [ (61, { movetime := 1500, variance := 0 }),
        (50, { movetime := 3500, variance := 0 }),
        (40, { movetime := 4500, variance := 0 }),
        (30, { movetime := 2500, variance := 0 }),
        (5, { movetime := 300, variance := 0 }) ] }

/-- A configuration whose movetimes lie below the minimum movetime. -/
def cexTimeConfig : TimeConfig :=
  { defaultMovetime := 100
    minimumMovetime := 1000
    timeThresholds := [ (50, { movetime := 500, variance := 0 }) ] }

/-- Default smack-mode thresholds (config.js:21-24 plus `smackModeMaxScore`). -/
def baseSmackCfg : SmackConfig :=
  { smackModeMinScore := -900
    smackModeMinMoves := 20
    smackModeMaxMoves := 40
    smackModeMinTime := 11
    smackModeMaxScore := 500 }

/-- A successful engine reply. -/
def baseMoveInfo : MoveInfo :=
  { move := "e2e4", depth := 20, score := 30, scoreunit := ScoreUnit.cp }

/-- A move message carrying the sequence number `v` and a concrete move. -/
def mkMoveEvent (v : Nat) : WsEvent :=
  { v := v
    isZero := false
    t := "move"
    goneFlag := false
    uci := some "e7e5"
    clock := some 60
    colorSignal := none
    automoveEnabled := false
    badOpeningEnabled := false
    gaslightingEnabled := false
    spamMoretimeEnabled := false
    autoStartEnabled := true
    badOpeningMoveOk := false
    engineResp := Except.ok baseMoveInfo
    smackCfg := baseSmackCfg }

/-- A `crowd` message from which the page reports the bot plays white. -/
def crowdWhiteEvent : WsEvent :=
  { mkMoveEvent 1 with t := "crowd", uci := none, colorSignal := some true }

/-- A move message (with a concrete move) arriving while automove is on. -/
def swallowedMoveEvent : WsEvent :=
  { mkMoveEvent 2 with automoveEnabled := true }

/-- A gaslight-mode decision during which the Stockfish server is
unreachable. -/
def engineFailEvent : WsEvent :=
  { mkMoveEvent 3 with gaslightingEnabled := true, engineResp := Except.error () }

/-- In an ascending-sorted list every member is at most the last element. -/
theorem sorted_mem_le_getLast {l : List ℚ} (hs : l.Sorted (· ≤ ·))
    {x b : ℚ} (hx : x ∈ l) (hb : l.getLast? = some b) : x ≤ b := by
  induction l with
  | nil => cases hx
  | cons a t ih =>
    rcases List.sorted_cons.mp hs with ⟨ha, ht⟩
    cases t with
    | nil =>
      have hxa : x = a := by simpa using hx
      have hab : a = b := by simpa using hb
      simp [hxa, ← hab]
    | cons c u =>
      have hb' : (c :: u).getLast? = some b := by
        simpa [List.getLast?] using hb
      rcases List.mem_cons.mp hx with rfl | hx'
      · have hbmem : b ∈ c :: u := List.mem_of_mem_getLast? hb'
        exact ha b hbmem
      · exact ih ht hx' hb'

/-- In an ascending-sorted list, `find?` returns a minimal element among
those satisfying the predicate. -/
theorem sorted_find?_min {l : List ℚ} (hs : l.Sorted (· ≤ ·))
    {p : ℚ → Bool} {x : ℚ} (hx : l.find? p = some x) :
    ∀ y ∈ l, p y = true → x ≤ y := by
  induction l with
  | nil => cases hx
  | cons a t ih =>
    rcases List.sorted_cons.mp hs with ⟨ha, ht⟩
    by_cases hpa : p a = true
    · rw [List.find?_cons_of_pos _ hpa] at hx
      cases hx
      intro y hy _
      rcases List.mem_cons.mp hy with rfl | hy'
      · exact le_refl _
      · exact ha y hy'
    · rw [List.find?_cons_of_neg _ hpa] at hx
      intro y hy hpy
      rcases List.mem_cons.mp hy with rfl | hy'
      · exact absurd hpy hpa
      · exact ih ht hx y hy' hpy

/-- C1 (amended): `pickGaslightMove` sorts the surviving candidates'
normalized scores ascending and selects the worst-scoring candidate
strictly above `minAcceptable = max(bestScore - maxScoreLoss, scoreFloor)`,
falling back to the best-scoring candidate when none qualifies.  Whenever
`minAcceptable < bestScore` (in particular whenever `maxScoreLoss > 0` and
`scoreFloor < bestScore`) the selected score `s` satisfies
`minAcceptable < s ≤ bestScore`; in the remaining case (the whole candidate
set lies at or below the floor, or `maxScoreLoss = 0`) the fallback selects
`s = bestScore ≤ minAcceptable`, so the strict lower bound claimed for all
configurations fails there. -/
theorem gaslightBandSelection (info : List InfoLine)
    (mateBoost maxScoreLoss scoreFloor : Int) (bestScore sel : ℚ)
    (hbest : (gaslightSortedScores info mateBoost).getLast? = some bestScore)
    (hsel : gaslightSelectedScore info mateBoost maxScoreLoss scoreFloor = some sel) :
    sel ∈ gaslightSortedScores info mateBoost ∧
    (∀ y ∈ gaslightSortedScores info mateBoost,
        max (bestScore - (maxScoreLoss : ℚ)) (scoreFloor : ℚ) < y → sel ≤ y) ∧
    (max (bestScore - (maxScoreLoss : ℚ)) (scoreFloor : ℚ) < bestScore →
        max (bestScore - (maxScoreLoss : ℚ)) (scoreFloor : ℚ) < sel ∧ sel ≤ bestScore) ∧
    (¬ max (bestScore - (maxScoreLoss : ℚ)) (scoreFloor : ℚ) < bestScore →
        sel = bestScore) := by
  have hsorted : (gaslightSortedScores info mateBoost).Sorted (· ≤ ·) := by
    unfold gaslightSortedScores
    exact List.sorted_insertionSort _ _
  have hbestmem : bestScore ∈ gaslightSortedScores info mateBoost :=
    List.mem_of_mem_getLast? hbest
  simp only [gaslightSelectedScore] at hsel
  rw [hbest] at hsel
  simp only [Option.map_some', Option.some.injEq] at hsel
  set m : ℚ := max (bestScore - (maxScoreLoss : ℚ)) (scoreFloor : ℚ) with hm
  cases hfind : (gaslightSortedScores info mateBoost).find? (fun s => decide (m < s)) with
  | none =>
    rw [hfind, Option.getD_none] at hsel
    have hnone := List.find?_eq_none.mp hfind
    have hnb : ¬ m < bestScore := by
      intro hmb
      exact hnone bestScore hbestmem (by simpa using hmb)
    refine ⟨hsel ▸ hbestmem, ?_, fun hmb => absurd hmb hnb, fun _ => hsel.symm⟩
    intro y hy hmy
    exact absurd hmy (by simpa using hnone y hy)
  | some x =>
    rw [hfind, Option.getD_some] at hsel
    have hxmem : x ∈ gaslightSortedScores info mateBoost :=
      List.mem_of_find?_eq_some hfind
    have hmx : m < x := by simpa using List.find?_some hfind
    have hxb : x ≤ bestScore := sorted_mem_le_getLast hsorted hxmem hbest
    refine ⟨hsel ▸ hxmem, ?_, fun _ => ⟨hsel ▸ hmx, hsel ▸ hxb⟩, ?_⟩
    · intro y hy hmy
      rw [← hsel]
      exact sorted_find?_min hsorted hfind y hy (by simpa using hmy)
    · intro hnmb
      exact absurd (lt_of_lt_of_le hmx hxb) hnmb

unseal Rat.inv Rat.add Rat.mul Rat.sub in
theorem gaslightBandSelection_witness :
    max ((3000001 : ℚ)/10000 - ((200 : Int) : ℚ)) (((-700 : Int) : ℚ)) <
        (1500002 : ℚ)/10000 ∧
    (1500002 : ℚ)/10000 ≤ (3000001 : ℚ)/10000 :=
  (gaslightBandSelection exInfoBand 10000000 200 (-700) ((3000001 : ℚ)/10000)
    ((1500002 : ℚ)/10000) (by decide) (by decide)).2.2.1 (by decide)

unseal Rat.inv Rat.add Rat.mul Rat.sub in
theorem gaslightBandSelection_cex :
    gaslightSortedScores cexInfoLosing 10000000 = [(-7999999 : ℚ)/10000] ∧
    gaslightSelectedScore cexInfoLosing 10000000 200 (-700) =
      some ((-7999999 : ℚ)/10000) ∧
    ¬ max ((-7999999 : ℚ)/10000 - ((200 : Int) : ℚ)) (((-700 : Int) : ℚ)) <
        (-7999999 : ℚ)/10000 := by
  decide

/-- After a JavaScript object assignment the assigned key is a key of the
object. -/
theorem dictInsert_key_mem {α β : Type} [DecidableEq α]
    (d : List (α × β)) (k : α) (v : β) :
    k ∈ (dictInsert d k v).map Prod.fst := by
  by_cases h : d.any (fun p => p.1 = k)
  · rcases List.any_eq_true.mp h with ⟨p, hp, hpk⟩
    have hpk' : p.1 = k := by simpa using hpk
    simp only [dictInsert, h, if_true]
    refine List.mem_map.mpr ⟨(k, v), ?_, rfl⟩
    refine List.mem_map.mpr ⟨p, hp, ?_⟩
    simp [hpk']
  · simp [dictInsert, h]

/-- The candidate at array index `0` is processed last by the survivor loop;
when its depth equals the maximal depth its tie-broken normalized score
`numScore + tieBreakOffset len 0` becomes a key of `numScoreMoveDict`. -/
theorem gaslight_first_key (first : InfoLine) (rest : List InfoLine)
    (mateBoost : Int)
    (hd : (((first :: rest).getLast?).map InfoLine.depth).getD 0 = first.depth) :
    ((numScoreOf mateBoost first.scoreValue first.scoreUnit : ℚ) +
        tieBreakOffset (first :: rest).length 0) ∈
      (gaslightDicts (first :: rest) mateBoost).numScoreMoveDict.map Prod.fst := by
  unfold gaslightDicts
  rw [List.enum_cons, List.reverse_cons, List.foldl_concat]
  rw [hd]
  unfold gaslightStep
  simp only [ne_eq, not_true_eq_false, if_false, ite_false]
  exact dictInsert_key_mem _ _ _

/-- C9 (amended): for engine results with fewer than 10000 info lines the
per-candidate tie-break offset `(len - i) / 10000` is strictly between 0
and 1 centipawn, and adding the offsets never reorders two candidates
whose un-offset normalized scores differ by at least 1 centipawn; both
parts fail once the info array reaches 10000 lines (see the
counterexample). -/
theorem tieBreakOffset_spec (len i j : Nat) (a b : Int)
    (hi : i < len) (hj : j < len) (hlen : len ≤ 9999) (hab : a + 1 ≤ b) :
    0 < tieBreakOffset len i ∧ tieBreakOffset len i < 1 ∧
    (a : ℚ) + tieBreakOffset len i < (b : ℚ) + tieBreakOffset len j := by
  have h10 : (0 : ℚ) < 10000 := by norm_num
  have hi' : (i : ℚ) < (len : ℚ) := by exact_mod_cast hi
  have hj' : (j : ℚ) < (len : ℚ) := by exact_mod_cast hj
  have hlen' : (len : ℚ) ≤ 9999 := by exact_mod_cast hlen
  have hpos_i : 0 < tieBreakOffset len i := by
    unfold tieBreakOffset
    exact div_pos (by linarith) h10
  have hlt_i : tieBreakOffset len i < 1 := by
    unfold tieBreakOffset
    rw [div_lt_one h10]
    linarith
  have hpos_j : 0 < tieBreakOffset len j := by
    unfold tieBreakOffset
    exact div_pos (by linarith) h10
  refine ⟨hpos_i, hlt_i, ?_⟩
  have hab' : (a : ℚ) + 1 ≤ (b : ℚ) := by exact_mod_cast hab
  linarith

theorem tieBreakOffset_spec_witness :
    0 < tieBreakOffset 2 0 ∧ tieBreakOffset 2 0 < 1 ∧
    ((0 : Int) : ℚ) + tieBreakOffset 2 0 < ((1 : Int) : ℚ) + tieBreakOffset 2 1 :=
  tieBreakOffset_spec 2 0 1 0 1 (by norm_num) (by norm_num) (by norm_num) (by norm_num)

/-- The 10000-line engine result `bigInfo` refutes C9 as stated: the
surviving candidate at array index 0 (raw normalized score 0) receives the
tie-break offset `10000 / 10000 = 1`, which is not strictly less than one
centipawn; `1 = 0 + 1` is the resulting dictionary key. -/
theorem tieBreakOffset_cex :
    tieBreakOffset bigInfo.length 0 = 1 ∧
    ¬ tieBreakOffset bigInfo.length 0 < 1 ∧
    (1 : ℚ) ∈ (gaslightDicts bigInfo 10000000).numScoreMoveDict.map Prod.fst := by
  have hlen : bigInfo.length = 10000 := by
    simp only [bigInfo, List.length_cons, List.length_append, List.length_replicate]
    norm_num
  have hoff : tieBreakOffset bigInfo.length 0 = 1 := by
    rw [hlen]
    norm_num [tieBreakOffset]
  refine ⟨hoff, by rw [hoff]; exact lt_irrefl 1, ?_⟩
  have hkey := gaslight_first_key
    { pvMove := "a1a2", depth := 5, scoreValue := 0, scoreUnit := ScoreUnit.cp }
    (List.replicate 9998
      { pvMove := "c2c3", depth := 4, scoreValue := 0, scoreUnit := ScoreUnit.cp } ++
     [{ pvMove := "b1b2", depth := 5, scoreValue := 7, scoreUnit := ScoreUnit.cp }])
    10000000 (by rw [← List.cons_append, List.getLast?_concat]; rfl)
  have hval : ((numScoreOf 10000000 0 ScoreUnit.cp : Int) : ℚ) +
      tieBreakOffset bigInfo.length 0 = 1 := by
    rw [hoff]
    norm_num [numScoreOf]
  rw [← hval]
  exact hkey

/-- C3: `isWhitesTurn()` holds exactly when the locally maintained move
counter is even, and `isBotsTurn()` holds exactly when the bot's color
matches the side to move. -/
theorem turn_derivation_spec (s : GameState) :
    (s.isWhitesTurn = true ↔ s.moveCounter % 2 = 0) ∧
    (s.isBotsTurn = true ↔ s.playerColorIsWhite = s.isWhitesTurn) := by
  constructor
  · simp [GameState.isWhitesTurn]
  · simp [GameState.isBotsTurn]

/-- C4: score normalization is pure and case-split exactly as specified —
centipawn scores pass through unchanged, a mate-in-`n` score with `n > 0`
normalizes to `mateBoost - n`, and `n < 0` normalizes to
`-mateBoost - n`. -/
theorem numScoreOf_spec (mateBoost score : Int) :
    numScoreOf mateBoost score ScoreUnit.cp = score ∧
    (0 < score → numScoreOf mateBoost score ScoreUnit.mate = mateBoost - score) ∧
    (score < 0 → numScoreOf mateBoost score ScoreUnit.mate = -mateBoost - score) := by
  refine ⟨rfl, fun h => ?_, fun h => ?_⟩
  · simp [numScoreOf, h]
  · have h' : ¬ score > 0 := by omega
    simp [numScoreOf, h']

theorem numScoreOf_spec_witness :
    numScoreOf 10000000 3 ScoreUnit.cp = 3 ∧
    numScoreOf 10000000 3 ScoreUnit.mate = 10000000 - 3 ∧
    numScoreOf 10000000 (-2) ScoreUnit.mate = -10000000 - (-2) :=
  ⟨(numScoreOf_spec 10000000 3).1,
   (numScoreOf_spec 10000000 3).2.1 (by norm_num),
   (numScoreOf_spec 10000000 (-2)).2.2 (by norm_num)⟩

/-- C7: `updateSmackModeStatus` escalates exactly when the move counter
exceeds `maxMoves`, or the remaining time is below `minTime`, or the last
gaslight score exceeds `config.smackModeMaxScore`, or at least `minMoves`
moves were played and the score is at most `minScore`; when the predicate
is false the session state is left unchanged. -/
theorem updateSmackModeStatus_spec (s : GameState) (t : ℚ)
    (score minScore : Int) (minMoves maxMoves : Nat)
    (minTime : ℚ) (smackModeMaxScore : Int) :
    (updateSmackModeStatus s.moveCounter (some t) score minScore minMoves maxMoves
        minTime smackModeMaxScore = true ↔
      (s.moveCounter > maxMoves ∨ t < minTime ∨ score > smackModeMaxScore ∨
        (minMoves ≤ s.moveCounter ∧ score ≤ minScore))) ∧
    (updateSmackModeStatus s.moveCounter (some t) score minScore minMoves maxMoves
        minTime smackModeMaxScore = false →
      updateSmackModeState s (some t) score minScore minMoves maxMoves
        minTime smackModeMaxScore = s) := by
  constructor
  · unfold updateSmackModeStatus jsLtOpt
    simp only [decide_eq_true_eq]
    split_ifs with h1 h2 h3
    · simp only [true_iff]
      tauto
    · have hD : ¬ minMoves ≤ s.moveCounter := by omega
      simp only [Bool.false_eq_true, false_iff]
      tauto
    · have hE : ¬ score ≤ minScore := by omega
      simp only [Bool.false_eq_true, false_iff]
      tauto
    · have hD : minMoves ≤ s.moveCounter := by omega
      have hE : score ≤ minScore := by omega
      simp only [true_iff]
      tauto
  · intro h
    unfold updateSmackModeState
    rw [h]
    simp

theorem updateSmackModeStatus_spec_witness :
    updateSmackModeStatus (41 : Nat) (some 100) 0 (-900) 20 40 11 500 = true := by
  have h := (updateSmackModeStatus_spec
    { GameState.reset with moveCounter := 41 } 100 0 (-900) 20 40 11 500).1
  exact h.mpr (Or.inl (by norm_num))

/-- The threshold table sorted by the scheduler is descending in the
percent floors. -/
theorem sortedThresholds_sorted (cfg : TimeConfig) :
    (sortedThresholds cfg).Sorted (fun a b => b.1 ≤ a.1) := by
  haveI htot : IsTotal (ℚ × TimeThresholdEntry) (fun a b => b.1 ≤ a.1) :=
    ⟨fun a b => le_total b.1 a.1⟩
  haveI htrans : IsTrans (ℚ × TimeThresholdEntry) (fun a b => b.1 ≤ a.1) :=
    ⟨fun _ _ _ hab hbc => le_trans hbc hab⟩
  exact List.sorted_insertionSort _ _

/-- In a descending-sorted table, `find?` of the first floor below the
percentage returns a maximal such floor. -/
theorem descFind_max {l : List (ℚ × TimeThresholdEntry)}
    (hs : l.Sorted (fun a b => b.1 ≤ a.1)) {x : ℚ} {en : ℚ × TimeThresholdEntry}
    (h : l.find? (fun p => decide (p.1 ≤ x)) = some en) :
    ∀ q ∈ l, q.1 ≤ x → q.1 ≤ en.1 := by
  induction l with
  | nil => cases h
  | cons a t ih =>
    rcases List.sorted_cons.mp hs with ⟨ha, ht⟩
    by_cases hpa : a.1 ≤ x
    · rw [List.find?_cons_of_pos _ (by simpa using hpa)] at h
      cases h
      intro q hq _
      rcases List.mem_cons.mp hq with rfl | hq'
      · exact le_refl _
      · exact ha q hq'
    · rw [List.find?_cons_of_neg _ (by simpa using hpa)] at h
      intro q hq hqx
      rcases List.mem_cons.mp hq with rfl | hq'
      · exact absurd hqx hpa
      · exact ih ht h q hq' hqx

/-- Zero variance means zero jitter (for a random draw in `[0, 1)`). -/
theorem randomVariance_zero (r : ℚ) (hr0 : 0 ≤ r) (hr1 : r < 1) :
    randomVariance r 0 = 0 := by
  unfold randomVariance
  have h1 : r * (2 * ((0 : Nat) : ℚ) + 1) = r := by norm_num
  rw [h1]
  have h2 : ⌊r⌋ = 0 := Int.floor_eq_zero_iff.mpr ⟨hr0, hr1⟩
  rw [h2]
  norm_num

/-- C6 (amended): when the initial time budget is set (and nonzero) the
computed movetime is clamped from below by `minimumMovetime`, and with
variance 0 it equals `max(minimumMovetime, matched movetime)` — i.e. the
matched entry's configured movetime whenever that is at least the minimum;
when the budget is unset the configured default movetime is returned
without that clamp; the table is evaluated from the highest percent floor
downward, so the matched entry is a table entry with the greatest floor at
most `percentRemaining`, and the default is used when no floor qualifies. -/
theorem getDynamicMovetime_spec (timeLeft it : ℚ) (cfg : TimeConfig) (r : ℚ)
    (hr0 : 0 ≤ r) (hr1 : r < 1) (hit : it ≠ 0) :
    cfg.minimumMovetime ≤ getDynamicMovetime timeLeft (some it) cfg r ∧
    getDynamicMovetime timeLeft none cfg r = cfg.defaultMovetime ∧
    (∀ en, matchedThreshold cfg (timeLeft / it * 100) = some en →
      en.2.variance = 0 →
      getDynamicMovetime timeLeft (some it) cfg r =
        max cfg.minimumMovetime en.2.movetime) ∧
    (matchedThreshold cfg (timeLeft / it * 100) = none →
      getDynamicMovetime timeLeft (some it) cfg r =
        max cfg.minimumMovetime cfg.defaultMovetime) ∧
    (∀ en, matchedThreshold cfg (timeLeft / it * 100) = some en →
      en ∈ cfg.timeThresholds ∧ en.1 ≤ timeLeft / it * 100 ∧
      ∀ q ∈ cfg.timeThresholds, q.1 ≤ timeLeft / it * 100 → q.1 ≤ en.1) ∧
    (matchedThreshold cfg (timeLeft / it * 100) = none →
      ∀ q ∈ cfg.timeThresholds, timeLeft / it * 100 < q.1) := by
  have hperm := List.perm_insertionSort
    (fun (a b : ℚ × TimeThresholdEntry) => b.1 ≤ a.1) cfg.timeThresholds
  refine ⟨?_, rfl, ?_, ?_, ?_, ?_⟩
  · simp only [getDynamicMovetime, if_neg hit]
    exact le_max_left _ _
  · intro en hen hvar
    simp only [getDynamicMovetime, if_neg hit, hen]
    rw [hvar, randomVariance_zero r hr0 hr1]
    norm_num
  · intro hnone
    simp only [getDynamicMovetime, if_neg hit, hnone]
    rw [randomVariance_zero r hr0 hr1]
    norm_num
  · intro en hen
    have hmem : en ∈ sortedThresholds cfg := List.mem_of_find?_eq_some hen
    have hle : en.1 ≤ timeLeft / it * 100 := by
      simpa using List.find?_some hen
    refine ⟨hperm.subset hmem, hle, ?_⟩
    intro q hq hqx
    have hq' : q ∈ sortedThresholds cfg := (hperm.mem_iff).mpr hq
    exact descFind_max (sortedThresholds_sorted cfg) hen q hq' hqx
  · intro hnone q hq
    have hq' : q ∈ sortedThresholds cfg := (hperm.mem_iff).mpr hq
    have h := List.find?_eq_none.mp hnone q hq'
    simp only [decide_eq_true_eq] at h
    exact lt_of_not_le h

unseal Rat.inv Rat.add Rat.mul Rat.sub in
theorem getDynamicMovetime_spec_witness :
    exTimeConfig.minimumMovetime ≤ getDynamicMovetime 35 (some 100) exTimeConfig 0 ∧
    getDynamicMovetime 35 (some 100) exTimeConfig 0 =
      max exTimeConfig.minimumMovetime 2500 := by
  have h := getDynamicMovetime_spec 35 100 exTimeConfig 0 (le_refl 0)
    (by norm_num) (by norm_num)
  exact ⟨h.1, h.2.2.1 (30, { movetime := 2500, variance := 0 }) (by decide) rfl⟩

unseal Rat.inv Rat.add Rat.mul Rat.sub in
theorem getDynamicMovetime_cex :
    getDynamicMovetime 60 (some 100) cexTimeConfig 0 = 1000 ∧
    matchedThreshold cexTimeConfig (60 / 100 * 100) =
      some (50, { movetime := 500, variance := 0 }) ∧
    (1000 : Int) ≠ 500 ∧
    getDynamicMovetime 60 none cexTimeConfig 0 = 100 ∧
    ¬ cexTimeConfig.minimumMovetime ≤ getDynamicMovetime 60 none cexTimeConfig 0 := by
  decide

/-- The handler never reads the external sequence number: processing an
event is unchanged when `v` is erased. -/
theorem handleWebSocketMessage_eraseV (s : GameState) (e : WsEvent) :
    handleWebSocketMessage s e.eraseV = handleWebSocketMessage s e := by
  cases e
  rfl

/-- Two event lists that agree after erasing the sequence numbers drive the
session into the same state. -/
theorem runHandler_eraseV_congr (s : GameState) (es1 es2 : List WsEvent)
    (h : es1.map WsEvent.eraseV = es2.map WsEvent.eraseV) :
    runHandler s es1 = runHandler s es2 := by
  induction es1 generalizing es2 s with
  | nil =>
    have : es2 = [] := by
      have h2 : es2.map WsEvent.eraseV = [] := by simpa using h.symm
      simpa using List.map_eq_nil_iff.mp h2
    rw [this]
  | cons e1 t1 ih =>
    cases es2 with
    | nil => simp at h
    | cons e2 t2 =>
      simp only [List.map_cons, List.cons.injEq] at h
      rcases h with ⟨he, ht⟩
      have hstep : handleWebSocketMessage s e1 = handleWebSocketMessage s e2 := by
        rw [← handleWebSocketMessage_eraseV s e1, he,
          handleWebSocketMessage_eraseV s e2]
      show runHandler (handleWebSocketMessage s e1) t1 =
        runHandler (handleWebSocketMessage s e2) t2
      rw [hstep]
      exact ih _ _ ht

/-- C2: the turn-to-move and bot's-turn decisions after any sequence of
incoming events are identical across two runs that differ only in the
externally supplied sequence numbers (`messageData.v`) attached to the
events — turn detection depends only on the locally maintained counter and
color. -/
theorem turn_independent_of_version (s : GameState) (es1 es2 : List WsEvent)
    (h : es1.map WsEvent.eraseV = es2.map WsEvent.eraseV) :
    (runHandler s es1).isWhitesTurn = (runHandler s es2).isWhitesTurn ∧
    (runHandler s es1).isBotsTurn = (runHandler s es2).isBotsTurn := by
  rw [runHandler_eraseV_congr s es1 es2 h]
  exact ⟨rfl, rfl⟩

theorem turn_independent_of_version_witness :
    (runHandler GameState.reset [mkMoveEvent 1, mkMoveEvent 2]).isWhitesTurn =
      (runHandler GameState.reset [mkMoveEvent 5, mkMoveEvent 9]).isWhitesTurn ∧
    (runHandler GameState.reset [mkMoveEvent 1, mkMoveEvent 2]).isBotsTurn =
      (runHandler GameState.reset [mkMoveEvent 5, mkMoveEvent 9]).isBotsTurn :=
  turn_independent_of_version GameState.reset
    [mkMoveEvent 1, mkMoveEvent 2] [mkMoveEvent 5, mkMoveEvent 9] rfl


/-- A successful engine decision leaves the move counter unchanged. -/
theorem calculateNextMove_moveCounter (s : GameState) (e : WsEvent)
    (out : GameState × Option MoveInfo) (h : calculateNextMove s e = Except.ok out) :
    out.1.moveCounter = s.moveCounter := by
  unfold calculateNextMove at h
  split_ifs at h with hg hs2
  · cases h
    rfl
  · cases hcg : calculateGaslightMove e.engineResp with
    | none => rw [hcg] at h; cases h
    | some mi =>
      rw [hcg] at h
      cases h
      unfold updateSmackModeState activateSmackMode
      split_ifs <;> rfl
  · cases h
    rfl

theorem setInitialGameTime_moveCounter (s : GameState) (clock : Option ℚ) :
    (setInitialGameTime s clock).moveCounter = s.moveCounter := by
  unfold setInitialGameTime
  split
  · split <;> rfl
  · rfl

theorem exitBadOpening_moveCounter (s : GameState) (e : WsEvent) :
    (exitBadOpening s e).moveCounter = s.moveCounter := by
  unfold exitBadOpening
  split <;> rfl

theorem postDecisionFlags_moveCounter (s : GameState) (e : WsEvent) (mi : MoveInfo) :
    (postDecisionFlags s e mi).moveCounter = s.moveCounter := by
  simp only [postDecisionFlags]
  split_ifs <;> rfl

/-- The post-increment processing never touches the move counter. -/
theorem processMoveBody_moveCounter (s : GameState) (e : WsEvent) :
    (processMoveBody s e).moveCounter = s.moveCounter := by
  simp only [processMoveBody]
  have h1 := setInitialGameTime_moveCounter s e.clock
  have h2 := exitBadOpening_moveCounter (setInitialGameTime s e.clock) e
  split
  · rfl
  · split
    · exact h1
    · split
      next heq => rw [h2, h1]
      next s3 heq =>
        have h3 := calculateNextMove_moveCounter _ e _ heq
        simp only at h3
        rw [h3, h2, h1]
      next s3 mi heq =>
        have h3 := calculateNextMove_moveCounter _ e _ heq
        simp only at h3
        rw [postDecisionFlags_moveCounter, h3, h2, h1]

theorem detectColorState_moveCounter (s : GameState) (e : WsEvent) :
    (detectColorState s e).moveCounter = s.moveCounter := by
  unfold detectColorState
  split
  · split <;> rfl
  · rfl

/-- C5 (amended): `moveCounter` is incremented exactly once by each move
message carrying a concrete move (`uci` field), except when the
first-move-as-white shortcut consumes the event (bot plays white, counter
still 0, the scripted first move not yet dispatched, automove on — the
handler then dispatches the opening move without counting the incoming
one); no other event changes `moveCounter` — clock updates and other
uci-less move messages, chat/presence/crowd messages — other than the
reset to 0 performed when a game-end message starts a new game. -/
theorem moveCounter_increment_spec (s : GameState) (e : WsEvent) :
    (e.t = "move" → e.uci.isSome = true →
      firstMoveGuard (detectColorState s e) e = false →
      (handleWebSocketMessage s e).moveCounter = s.moveCounter + 1) ∧
    (e.t = "move" → e.uci = none →
      firstMoveGuard (detectColorState s e) e = false →
      (handleWebSocketMessage s e).moveCounter = s.moveCounter) ∧
    (e.t ≠ "endData" → ¬(e.t = "gone" ∧ e.goneFlag = true) →
      firstMoveGuard (detectColorState s e) e = true →
      (handleWebSocketMessage s e).moveCounter = s.moveCounter) ∧
    (e.t = "endData" →
      (handleWebSocketMessage s e).moveCounter =
        if e.autoStartEnabled then 0 else s.moveCounter) ∧
    (e.t ≠ "move" → e.t ≠ "endData" → ¬ firstMoveGuard (detectColorState s e) e = true →
      (handleWebSocketMessage s e).moveCounter = s.moveCounter) := by
  refine ⟨?_, ?_, ?_, ?_, ?_⟩
  · intro ht hu hg
    obtain ⟨u, huci⟩ := Option.isSome_iff_exists.mp hu
    have h1 : (("move" : String) == "gone") = false := by decide
    have h2 : (("move" : String) == "endData") = false := by decide
    have h3 : (("move" : String) != "move") = false := by decide
    simp only [handleWebSocketMessage, processMoveMessage, ht, h1, h2, h3,
      Bool.false_and, Bool.false_eq_true, if_false, hg, huci]
    rw [processMoveBody_moveCounter]
    simp [detectColorState_moveCounter]
  · intro ht hu hg
    have h1 : (("move" : String) == "gone") = false := by decide
    have h2 : (("move" : String) == "endData") = false := by decide
    have h3 : (("move" : String) != "move") = false := by decide
    simp only [handleWebSocketMessage, processMoveMessage, ht, h1, h2, h3,
      Bool.false_and, Bool.false_eq_true, if_false, hg, hu]
    exact detectColorState_moveCounter s e
  · intro hend hgone hg
    have h1 : ((e.t == "gone") && e.goneFlag) = false := by
      cases hb : e.goneFlag with
      | false => simp
      | true =>
        cases htg : (e.t == "gone") with
        | false => simp
        | true => exact absurd ⟨by simpa using htg, hb⟩ hgone
    have h2 : (e.t == "endData") = false := by simpa using hend
    simp only [handleWebSocketMessage, h1, h2, Bool.false_eq_true, if_false, hg,
      if_true]
    simp [detectColorState_moveCounter]
  · intro ht
    have h1 : (("endData" : String) == "gone") = false := by decide
    have h2 : (("endData" : String) == "endData") = true := by decide
    simp only [handleWebSocketMessage, ht, h1, Bool.false_and, Bool.false_eq_true,
      if_false, h2, if_true]
    split <;> rfl
  · intro htm hte hg
    rw [Bool.not_eq_true] at hg
    have h2 : (e.t == "endData") = false := by simpa using hte
    have h4 : (e.t == "move") = false := by simpa using htm
    have h3 : (e.t != "move") = true := by simp [bne, h4]
    simp only [handleWebSocketMessage, h2, Bool.false_eq_true, if_false, hg, h3,
      if_true]
    split
    · rfl
    · exact detectColorState_moveCounter s e

theorem moveCounter_increment_spec_witness :
    (handleWebSocketMessage GameState.reset (mkMoveEvent 1)).moveCounter =
      GameState.reset.moveCounter + 1 :=
  (moveCounter_increment_spec GameState.reset (mkMoveEvent 1)).1 rfl rfl (by decide)

/-- Refutes C5 as stated: from the reset session, a `crowd` message sets the
bot's color to white; the next move message carries a concrete move
(`uci`), yet with automove enabled the first-move-as-white shortcut
consumes it and `moveCounter` stays 0 instead of becoming 1. -/
theorem moveCounter_increment_cex :
    (handleWebSocketMessage GameState.reset crowdWhiteEvent).playerColorIsWhite = true ∧
    (handleWebSocketMessage GameState.reset crowdWhiteEvent).moveCounter = 0 ∧
    swallowedMoveEvent.t = "move" ∧
    swallowedMoveEvent.uci.isSome = true ∧
    (handleWebSocketMessage (handleWebSocketMessage GameState.reset crowdWhiteEvent)
        swallowedMoveEvent).moveCounter = 0 := by
  decide

/-- C8: when the engine query fails, `calculateBestMove`/`calculateGaslightMove`
catch the error and return `null` (src/src/utils/apiClient.js), but the
callers never check for `null`: the decision ends with a `TypeError` thrown
at `moveInfo.score` (src/unnamed/part_004:388) or `moveInfo.move`
(src/unnamed/part_004:596) — so no move is dispatched for the event, but
the decision aborts by an exception escaping `processMoveMessage` instead
of the clean skip the specification requires. -/
theorem engineFailure_typeError (s : GameState) (e : WsEvent) :
    moveDecision s { e with engineResp := Except.error () } =
      Except.error JsError.typeError ∧
    ∀ m : String,
      moveDecision s { e with engineResp := Except.error () } ≠ Except.ok (some m) := by
  have h : moveDecision s { e with engineResp := Except.error () } =
      Except.error JsError.typeError := by
    cases e
    unfold moveDecision calculateNextMove calculateBestMove calculateGaslightMove
    split_ifs <;> rfl
  refine ⟨h, fun m hm => ?_⟩
  rw [h] at hm
  cases hm

/-- C10 (amended): when the bot plays white the centipawn evaluation is
negated before display (slider gets `-score`, the printed number becomes
`score / 100`), and used as returned when the bot plays black; mate
scores, however, are displayed without any color-based adjustment in the
current `updateScore` — the signed mate count shown is exactly the
engine's — and only the older revision (`updateScoreLegacy`) negated the
mate count for white. -/
theorem updateScore_spec (score : Int) (w : Bool) :
    (updateScore score true ScoreUnit.cp).sliderValue = -(score : ℚ) ∧
    (updateScore score false ScoreUnit.cp).sliderValue = (score : ℚ) ∧
    (updateScore score true ScoreUnit.cp).labelCp = some ((score : ℚ) / 100) ∧
    (updateScore score false ScoreUnit.cp).labelCp = some (-(score : ℚ) / 100) ∧
    (updateScore score w ScoreUnit.mate).labelMate = some score ∧
    (updateScoreLegacy score w ScoreUnit.mate).labelMate =
      some (if w then -score else score) := by
  refine ⟨?_, ?_, ?_, ?_, ?_, ?_⟩ <;>
    simp [updateScore, updateScoreLegacy, Int.cast_neg, neg_neg]

/-- Refutes C10 as stated: with the bot playing white and the engine
reporting mate in 3, the current `updateScore` displays `M3`, not the
negated `-M3` the claim asserts. -/
theorem updateScore_mate_cex :
    (updateScore 3 true ScoreUnit.mate).labelMate = some 3 ∧
    ¬ (updateScore 3 true ScoreUnit.mate).labelMate = some (-3) := by
  decide
